import Mathlib

/-!
# stereocam_broadcast: camera lifecycle and acquire/publish loop

Shallow embedding of `trunk/ros/stereocam/src/stereocam_broadcast.cpp`.

* The global variables of the node (`dev0`, `dev1`, `fps`, `ww`, `hh`, `c`,
  `c2`, `left`, `right`, `cam_active`, `cam_active_request`) form `State`.
* The capture library (`libcam.h`, `libcam.cpp`) is outside the sources at
  hand.  Its behaviour is a parameter: a device world `σ` together with a
  `Dev σ` giving the effect of the `Camera` constructor, destructor, `Get()`
  and of `usleep`.  The constructor is taken to return, telling the library
  (not the node) whether the device opened; `new` never yields `NULL`.
* Service handlers run inside `ros::spinOnce()` on the loop's own thread, so
  a run of the node is a sequence of loop iterations and handler calls.
* C `int` arithmetic is modelled on `Int` with explicit two's-complement
  wrapping (`wrapInt`), conversions to `uint32_t` and `size_t` by `toU32` and
  `toSizeT`.
* Pixel contents are produced by the capture library and are not modelled; an
  image message is its geometry fields and the size of its data buffer.
* The poll loop `while(c->Get()==0 || c2->Get()==0) usleep(100);` has no
  exit other than both polls succeeding, so the loop iteration is given a
  fuel argument counting poll rounds.
-/

namespace Stereocam

/-! ## Machine integers -/

/-- Value of a C `int` expression whose mathematical value is `x`
(32-bit two's-complement wrap). -/
def wrapInt (x : Int) : Int := (x + 2147483648) % 4294967296 - 2147483648

/-- Conversion of an integer value to `uint32_t`. -/
def toU32 (x : Int) : Nat := (x % 4294967296).toNat

/-- Conversion of an integer value to `size_t` (64-bit). -/
def toSizeT (x : Int) : Nat := (x % 18446744073709551616).toNat

/-! ## Data model -/

/-- The fields of `sensor_msgs::Image` that the node sets; `data_size` is
`data.size()`. -/
structure Image where
  width : Nat
  height : Nat
  step : Nat
  encoding : String
  data_size : Nat
deriving DecidableEq, Repr

/-- A default-constructed `sensor_msgs::Image`. -/
def Image.empty : Image :=
  { width := 0, height := 0, step := 0, encoding := "", data_size := 0 }

/-- A `Camera` object as built by `new Camera(name, w, h, fps)`: the
constructor arguments, and whether the device could be opened (known to the
capture library only, never inspected by the node). -/
structure Camera where
  name : String
  width : Int
  height : Int
  fps : Int
  opened : Bool
deriving DecidableEq, Repr

/-- The capture library and the sleeping primitive, acting on a device
world `σ`. -/
structure Dev (σ : Type) where
  /-- Effect of `new Camera(name, w, h, fps)`: did the device open, and the new world. -/
  ctor : String → Int → Int → Int → σ → Bool × σ
  /-- Effect of `delete camera`. -/
  dtor : Camera → σ → σ
  /-- Effect of `camera->Get()`: the returned value and the new world. -/
  get : Camera → σ → Int × σ
  /-- Effect of `usleep(100)`. -/
  usleep : σ → σ

/-- The global variables of `stereocam_broadcast.cpp`; `none` is `NULL`. -/
structure State where
  dev0 : String
  dev1 : String
  fps : Int
  ww : Int
  hh : Int
  c : Option Camera
  c2 : Option Camera
  left : Image
  right : Image
  cam_active : Bool
  cam_active_request : Bool
deriving DecidableEq, Repr

/-- The initial values of the globals. -/
def State.init : State :=
  { dev0 := "/dev/video1", dev1 := "/dev/video0", fps := 30, ww := 320, hh := 240,
    c := none, c2 := none, left := Image.empty, right := Image.empty,
    cam_active := false, cam_active_request := false }

/-- The request of the `stereocam_params` service, fields as passed to the
`int` and `std::string` parameters of `start_cameras`. -/
structure ParamsRequest where
  left_device : String
  right_device : String
  width : Int
  height : Int
  fps : Int
deriving DecidableEq, Repr

inductive Side where
  | left
  | right
deriving DecidableEq, Repr

/-- Observable steps of the acquire-and-publish part of a loop iteration. -/
inductive Event where
  /-- Call of `c->toIplImage(l)` or `c2->toIplImage(r)`. -/
  | toIplImage (side : Side)
  /-- Call of `memcpy` writing `len` bytes into `left.data` or `right.data`. -/
  | memcpy (dst : Side) (len : Nat)
  /-- Call of `left_pub.publish(left)` or `right_pub.publish(right)`. -/
  | publish (side : Side) (img : Image)
deriving DecidableEq, Repr

/-! ## Operations -/

/-- The function `stop_cameras(c, c2)`. Deleting a `NULL` pointer does nothing. -/
def stop_cameras {σ : Type} (D : Dev σ) (s : State) (w : σ) : State × σ :=
  match s.c with
  | some lc =>
    let w1 := D.dtor lc w
    let w2 := match s.c2 with
      | some rc => D.dtor rc w1
      | none => w1
    ({ s with c := none, c2 := none, cam_active := false }, w2)
  | none => (s, w)

/-- The function `start_cameras(c, c2, left, right, left_device, right_device, width,
height, fps)`. -/
def start_cameras {σ : Type} (D : Dev σ) (s : State) (w : σ)
    (left_device right_device : String) (width height fps : Int) : State × σ :=
  let p := stop_cameras D s w
  let l := D.ctor left_device width height fps p.2
  let r := D.ctor right_device width height fps l.2
  ({ p.1 with
      c := some { name := left_device, width := width, height := height, fps := fps,
                  opened := l.1 },
      c2 := some { name := right_device, width := width, height := height, fps := fps,
                   opened := r.1 },
      left := { p.1.left with
                  width := toU32 width, height := toU32 height,
                  step := toU32 (wrapInt (width * 3)), encoding := "bgr8",
                  data_size := toU32 (wrapInt (wrapInt (width * height) * 3)) },
      right := { p.1.right with
                  width := toU32 width, height := toU32 height,
                  step := toU32 (wrapInt (width * 3)), encoding := "bgr8",
                  data_size := toU32 (wrapInt (wrapInt (width * height) * 3)) },
      cam_active := true }, r.2)

/-- The `camera_active` service handler; the second component is `res.ack`.
The handler always returns `true`. -/
def camera_active (s : State) (req : Int) : State × Int :=
  if req > 0 then ({ s with cam_active_request := true }, 1)
  else ({ s with cam_active_request := false }, 1)

/-- The `request_params` service handler; the last component is `res.ack`.
The handler always returns `true`. -/
def request_params {σ : Type} (D : Dev σ) (s : State) (w : σ) (req : ParamsRequest) :
    (State × σ) × Int :=
  (start_cameras D s w req.left_device req.right_device req.width req.height req.fps, 1)

/-- Outcome of the poll loop within a given number of rounds. -/
inductive PollResult (σ : Type) where
  /-- Both `Get()` calls of one round returned nonzero. -/
  | ready (w : σ)
  /-- The loop is still polling after the given number of rounds. -/
  | spinning (w : σ)
  /-- A `NULL` camera pointer was dereferenced. -/
  | fault (w : σ)

/-- The loop `while(c->Get()==0 || c2->Get()==0) usleep(100);` run for at most
`fuel` rounds. `||` evaluates `c2->Get()` only when `c->Get()` is nonzero. -/
def pollLoop {σ : Type} (D : Dev σ) (c c2 : Option Camera) : Nat → σ → PollResult σ
  | 0, w => PollResult.spinning w
  | fuel + 1, w =>
    match c with
    | none => PollResult.fault w
    | some a =>
      let r1 := D.get a w
      if r1.1 = 0 then pollLoop D c c2 fuel (D.usleep r1.2)
      else
        match c2 with
        | none => PollResult.fault r1.2
        | some b =>
          let r2 := D.get b r1.2
          if r2.1 = 0 then pollLoop D c c2 fuel (D.usleep r2.2)
          else PollResult.ready r2.2

inductive Status where
  /-- The iteration reached `ros::spinOnce()`. -/
  | done
  /-- The poll loop has not ended within the fuel. -/
  | spinning
  /-- A `NULL` camera pointer was dereferenced. -/
  | fault
deriving DecidableEq, Repr

/-- What one loop iteration did: how far it got, the globals, the device
world and the events in program order. -/
structure IterResult (σ : Type) where
  status : Status
  state : State
  world : σ
  trace : List Event

/-- The first statement of the loop body: act on a pending on/off request. -/
def reconcile {σ : Type} (D : Dev σ) (s : State) (w : σ) : State × σ :=
  if s.cam_active_request != s.cam_active then
    if s.cam_active_request == false then stop_cameras D s w
    else start_cameras D s w s.dev0 s.dev1 s.ww s.hh s.fps
  else (s, w)

/-- The loop body of `main` up to `ros::spinOnce()`, with at most `fuel`
rounds of the poll loop. Each `memcpy` is recorded with its length `ww*hh*3`;
the steps after the two copies are those of copies that stay within
`left.data` and `right.data`, and statements about them are made for such
buffers only. -/
def mainIter {σ : Type} (D : Dev σ) (fuel : Nat) (s : State) (w : σ) : IterResult σ :=
  let p := reconcile D s w
  if p.1.cam_active then
    match pollLoop D p.1.c p.1.c2 fuel p.2 with
    | PollResult.ready w1 =>
      let n := toSizeT (wrapInt (wrapInt (p.1.ww * p.1.hh) * 3))
      { status := Status.done, state := p.1, world := w1,
        trace := [Event.toIplImage Side.left, Event.toIplImage Side.right,
                  Event.memcpy Side.left n, Event.memcpy Side.right n,
                  Event.publish Side.left p.1.left, Event.publish Side.right p.1.right] }
    | PollResult.spinning w1 =>
      { status := Status.spinning, state := p.1, world := w1, trace := [] }
    | PollResult.fault w1 =>
      { status := Status.fault, state := p.1, world := w1, trace := [] }
  else
    { status := Status.done, state := p.1, world := p.2, trace := [] }

/-- What can happen to the node: a loop iteration, a service call handled in
`ros::spinOnce()`, or a change of the device world from outside. -/
inductive Action (σ : Type) where
  | iter (fuel : Nat)
  | active (req : Int)
  | params (req : ParamsRequest)
  | env (w : σ)

/-- Run a sequence of actions. An iteration that does not reach its end
(poll loop still spinning, or a fault) ends the run there. -/
def run {σ : Type} (D : Dev σ) : List (Action σ) → State → σ → IterResult σ
  | [], s, w => { status := Status.done, state := s, world := w, trace := [] }
  | Action.iter fuel :: rest, s, w =>
    let r := mainIter D fuel s w
    match r.status with
    | Status.done =>
      let r2 := run D rest r.state r.world
      { r2 with trace := r.trace ++ r2.trace }
    | _ => r
  | Action.active req :: rest, s, w => run D rest (camera_active s req).1 w
  | Action.params req :: rest, s, w =>
    run D rest (request_params D s w req).1.1 (request_params D s w req).1.2
  | Action.env w1 :: rest, s, _ => run D rest s w1

/-- The messages handed to the two publishers, in order. -/
def published : List Event → List (Side × Image)
  | [] => []
  | Event.publish side img :: rest => (side, img) :: published rest
  | _ :: rest => published rest

/-- A published trace made of (left, right) pairs only. -/
def pairsOnly : List (Side × Image) → Bool
  | [] => true
  | (Side.left, _) :: (Side.right, _) :: rest => pairsOnly rest
  | _ => false

/-- States reachable from the initial globals by the operations of the node,
under any behaviour of the device world. -/
inductive Reachable {σ : Type} (D : Dev σ) : State → Prop where
  | init : Reachable D State.init
  | stop (s : State) (w : σ) : Reachable D s → Reachable D (stop_cameras D s w).1
  | start (s : State) (w : σ) (ld rd : String) (width height fps : Int) :
      Reachable D s → Reachable D (start_cameras D s w ld rd width height fps).1
  | active (s : State) (req : Int) : Reachable D s → Reachable D (camera_active s req).1
  | params (s : State) (w : σ) (req : ParamsRequest) :
      Reachable D s → Reachable D (request_params D s w req).1.1
  | iter (s : State) (w : σ) (fuel : Nat) :
      Reachable D s → Reachable D (mainIter D fuel s w).state

/-- The rig is never half-open, and `cam_active` tells whether it is open. -/
def Paired (s : State) : Prop :=
  (s.c.isSome = s.c2.isSome) ∧ (s.cam_active = s.c.isSome)

/-- No device handle held and `cam_active` false. -/
def Inactive (s : State) : Prop :=
  s.c = none ∧ s.c2 = none ∧ s.cam_active = false

/-- Both device handles held and `cam_active` true. -/
def Active (s : State) : Prop :=
  s.c.isSome = true ∧ s.c2.isSome = true ∧ s.cam_active = true

/-- The startup configuration is never written after initialisation. -/
def Defaults (s : State) : Prop :=
  s.dev0 = "/dev/video1" ∧ s.dev1 = "/dev/video0" ∧ s.fps = 30 ∧ s.ww = 320 ∧ s.hh = 240

/-! ## Example device worlds -/

/-- Devices that always open and always have a frame. -/
def readyDev : Dev Unit :=
  { ctor := fun _ _ _ _ w => (true, w), dtor := fun _ w => w,
    get := fun _ w => (1, w), usleep := fun w => w }

/-- Devices that never open and never have a frame. -/
def deadDev : Dev Unit :=
  { ctor := fun _ _ _ _ w => (false, w), dtor := fun _ w => w,
    get := fun _ w => (0, w), usleep := fun w => w }


/-- The request sent by the subscriber node:
`set_stereo_camera_params("/dev/video1","/dev/video0",320,240,30)`. -/
def subscriberRequest : ParamsRequest :=
  { left_device := "/dev/video1", right_device := "/dev/video0",
    width := 320, height := 240, fps := 30 }

/-- The globals after the subscriber's request was handled at startup, with
devices that open. -/
def startedState : State :=
  (request_params readyDev State.init () subscriberRequest).1.1

/-- A request whose byte count `width*height*3` does not fit a C `int`. -/
def hugeRequest : ParamsRequest :=
  { left_device := "/dev/video1", right_device := "/dev/video0",
    width := 65536, height := 65536, fps := 30 }

/-- A request with non-positive width, height and frame rate. -/
def zeroRequest : ParamsRequest :=
  { left_device := "/dev/video1", right_device := "/dev/video0",
    width := 0, height := 0, fps := 0 }

/-- One round of the poll loop: did both polls return nonzero, and the world
after the round (after `usleep(100)` when the round failed). -/
def pollRound {σ : Type} (D : Dev σ) (a b : Camera) (w : σ) : Bool × σ :=
  let r1 := D.get a w
  if r1.1 = 0 then (false, D.usleep r1.2)
  else
    let r2 := D.get b r1.2
    if r2.1 = 0 then (false, D.usleep r2.2) else (true, r2.2)

/-- The device world at the start of round `k` of the poll loop. -/
def roundWorld {σ : Type} (D : Dev σ) (a b : Camera) : Nat → σ → σ
  | 0, w => w
  | k + 1, w => roundWorld D a b k (pollRound D a b w).2

/-- A reconfigure request, a deactivation, a loop iteration, a reactivation
and another loop iteration. -/
def reactivation {σ : Type} (req : ParamsRequest) (reqOff reqOn : Int) (f1 f2 : Nat) :
    List (Action σ) :=
  [Action.params req, Action.active reqOff, Action.iter f1, Action.active reqOn, Action.iter f2]

/-- A new configuration: other devices, 640x480 at 15 frames per second. -/
def newConfig : ParamsRequest :=
  { left_device := "/dev/video2", right_device := "/dev/video3",
    width := 640, height := 480, fps := 15 }

/-- A configuration smaller than the startup 320x240. -/
def smallRequest : ParamsRequest :=
  { left_device := "/dev/video1", right_device := "/dev/video0",
    width := 160, height := 120, fps := 30 }

/-- An active rig with activation desired, devices always ready. -/
def activeState : State := (camera_active startedState 1).1

/-- An active rig with activation desired, whose devices never deliver. -/
def deadActiveState : State :=
  (camera_active (request_params deadDev State.init () subscriberRequest).1.1 1).1

/-- Iterations, a reconfigure request and a further deactivation, with no
activation request. -/
def quietActions : List (Action Unit) :=
  [Action.iter 1, Action.params newConfig, Action.iter 1, Action.active 0, Action.iter 1]

/-- Activation, a reconfigure to 160x120, then one loop iteration. -/
def shrinkActions : List (Action Unit) :=
  [Action.active 1, Action.params smallRequest, Action.iter 1]

/-- Activation, an iteration at the startup 320x240, a reconfigure to 640x480,
then one loop iteration. -/
def growActions : List (Action Unit) :=
  [Action.active 1, Action.iter 1, Action.params newConfig, Action.iter 1]

/-! ## Shared lemmas -/

theorem stop_cameras_state {σ : Type} (D : Dev σ) (s : State) (w : σ) :
    (stop_cameras D s w).1 =
      if s.c.isSome then { s with c := none, c2 := none, cam_active := false } else s := by
  unfold stop_cameras
  cases h : s.c <;> simp

theorem stop_cameras_none {σ : Type} (D : Dev σ) (s : State) (w : σ) (h : s.c = none) :
    stop_cameras D s w = (s, w) := by
  unfold stop_cameras
  simp [h]

theorem stop_cameras_c {σ : Type} (D : Dev σ) (s : State) (w : σ) :
    (stop_cameras D s w).1.c = none := by
  rw [stop_cameras_state]
  cases h : s.c <;> simp [h]

theorem stop_cameras_paired {σ : Type} (D : Dev σ) (s : State) (w : σ) (h : Paired s) :
    Inactive (stop_cameras D s w).1 := by
  obtain ⟨h1, h2⟩ := h
  rw [stop_cameras_state]
  cases hc : s.c with
  | none =>
    rw [hc] at h1 h2
    have h3 : s.c2 = none := by
      cases h4 : s.c2 with
      | none => rfl
      | some b => rw [h4] at h1; simp at h1
    simp [Inactive, hc, h3, h2]
  | some a => simp [Inactive]

theorem stop_cameras_defaults {σ : Type} (D : Dev σ) (s : State) (w : σ) (h : Defaults s) :
    Defaults (stop_cameras D s w).1 := by
  rw [stop_cameras_state]
  cases hc : s.c <;> simpa [Defaults] using h

theorem stop_cameras_request {σ : Type} (D : Dev σ) (s : State) (w : σ) :
    (stop_cameras D s w).1.cam_active_request = s.cam_active_request := by
  rw [stop_cameras_state]
  cases hc : s.c <;> simp

theorem inactive_paired (s : State) (h : Inactive s) : Paired s := by
  obtain ⟨h1, h2, h3⟩ := h
  simp [Paired, h1, h2, h3]

theorem active_paired (s : State) (h : Active s) : Paired s := by
  obtain ⟨h1, h2, h3⟩ := h
  simp [Paired, h1, h2, h3]

theorem start_cameras_active {σ : Type} (D : Dev σ) (s : State) (w : σ)
    (ld rd : String) (width height fps : Int) :
    Active (start_cameras D s w ld rd width height fps).1 := by
  simp [Active, start_cameras]

theorem start_cameras_defaults {σ : Type} (D : Dev σ) (s : State) (w : σ)
    (ld rd : String) (width height fps : Int) (h : Defaults s) :
    Defaults (start_cameras D s w ld rd width height fps).1 := by
  have h1 := stop_cameras_defaults D s w h
  simpa [Defaults, start_cameras] using h1

theorem start_cameras_request {σ : Type} (D : Dev σ) (s : State) (w : σ)
    (ld rd : String) (width height fps : Int) :
    (start_cameras D s w ld rd width height fps).1.cam_active_request
      = s.cam_active_request := by
  have h1 := stop_cameras_request D s w
  simpa [start_cameras] using h1

theorem camera_active_paired (s : State) (req : Int) (h : Paired s) :
    Paired (camera_active s req).1 := by
  unfold camera_active
  split <;> simpa [Paired] using h

theorem camera_active_defaults (s : State) (req : Int) (h : Defaults s) :
    Defaults (camera_active s req).1 := by
  unfold camera_active
  split <;> simpa [Defaults] using h

theorem reconcile_paired {σ : Type} (D : Dev σ) (s : State) (w : σ) (h : Paired s) :
    Paired (reconcile D s w).1 := by
  unfold reconcile
  split
  · split
    · exact inactive_paired _ (stop_cameras_paired D s w h)
    · exact active_paired _ (start_cameras_active D s w _ _ _ _ _)
  · exact h

theorem reconcile_defaults {σ : Type} (D : Dev σ) (s : State) (w : σ) (h : Defaults s) :
    Defaults (reconcile D s w).1 := by
  unfold reconcile
  split
  · split
    · exact stop_cameras_defaults D s w h
    · exact start_cameras_defaults D s w _ _ _ _ _ h
  · exact h

theorem mainIter_state {σ : Type} (D : Dev σ) (fuel : Nat) (s : State) (w : σ) :
    (mainIter D fuel s w).state = (reconcile D s w).1 := by
  unfold mainIter
  simp only
  split
  · split <;> rfl
  · rfl

theorem reachable_paired {σ : Type} (D : Dev σ) (s : State) (h : Reachable D s) :
    Paired s := by
  induction h with
  | init => simp [Paired, State.init]
  | stop s w _ ih => exact inactive_paired _ (stop_cameras_paired D s w ih)
  | start s w ld rd width height fps _ _ =>
    exact active_paired _ (start_cameras_active D s w ld rd width height fps)
  | active s req _ ih => exact camera_active_paired s req ih
  | params s w req _ _ =>
    exact active_paired _ (start_cameras_active D s w _ _ _ _ _)
  | iter s w fuel _ ih =>
    rw [mainIter_state]
    exact reconcile_paired D s w ih

theorem reachable_defaults {σ : Type} (D : Dev σ) (s : State) (h : Reachable D s) :
    Defaults s := by
  induction h with
  | init => simp [Defaults, State.init]
  | stop s w _ ih => exact stop_cameras_defaults D s w ih
  | start s w ld rd width height fps _ ih =>
    exact start_cameras_defaults D s w ld rd width height fps ih
  | active s req _ ih => exact camera_active_defaults s req ih
  | params s w req _ ih =>
    exact start_cameras_defaults D s w _ _ _ _ _ ih
  | iter s w fuel _ ih =>
    rw [mainIter_state]
    exact reconcile_defaults D s w ih


theorem paired_inactive_c (s : State) (h : Paired s) (ha : s.cam_active = false) :
    s.c = none := by
  obtain ⟨_, h2⟩ := h
  rw [ha] at h2
  cases hc : s.c with
  | none => rfl
  | some a => rw [hc] at h2; simp at h2

theorem paired_active_cameras (s : State) (h : Paired s) (ha : s.cam_active = true) :
    ∃ a b, s.c = some a ∧ s.c2 = some b := by
  obtain ⟨h1, h2⟩ := h
  rw [ha] at h2
  rw [← h2] at h1
  cases hc : s.c with
  | none => rw [hc] at h2; simp at h2
  | some a =>
    cases hc2 : s.c2 with
    | none => rw [hc2] at h1; simp at h1
    | some b => exact ⟨a, b, rfl, rfl⟩

theorem reconcile_off {σ : Type} (D : Dev σ) (s : State) (w : σ) (h : Paired s)
    (hr : s.cam_active_request = false) : reconcile D s w = stop_cameras D s w := by
  unfold reconcile
  cases ha : s.cam_active with
  | true => simp [hr]
  | false =>
    simp [hr]
    exact (stop_cameras_none D s w (paired_inactive_c s h ha)).symm

theorem reconcile_on_inactive {σ : Type} (D : Dev σ) (s : State) (w : σ)
    (hr : s.cam_active_request = true) (ha : s.cam_active = false) :
    reconcile D s w = start_cameras D s w s.dev0 s.dev1 s.ww s.hh s.fps := by
  unfold reconcile
  simp [hr, ha]

theorem reconcile_on_active {σ : Type} (D : Dev σ) (s : State) (w : σ)
    (hr : s.cam_active_request = true) (ha : s.cam_active = true) :
    reconcile D s w = (s, w) := by
  unfold reconcile
  simp [hr, ha]

theorem mainIter_off {σ : Type} (D : Dev σ) (fuel : Nat) (s : State) (w : σ) (h : Paired s)
    (hr : s.cam_active_request = false) :
    mainIter D fuel s w =
      { status := Status.done, state := (stop_cameras D s w).1,
        world := (stop_cameras D s w).2, trace := [] } := by
  have hi := (stop_cameras_paired D s w h).2.2
  unfold mainIter
  simp only [reconcile_off D s w h hr, hi]
  rfl

theorem run_off {σ : Type} (D : Dev σ) (acts : List (Action σ)) :
    ∀ (s : State) (w : σ), Paired s → s.cam_active_request = false →
      (∀ a ∈ acts, ∀ n : Int, a = Action.active n → n ≤ 0) →
      (run D acts s w).status = Status.done ∧ (run D acts s w).trace = [] := by
  induction acts with
  | nil => intro s w _ _ _; exact ⟨rfl, rfl⟩
  | cons a rest ih =>
    intro s w hp hr hacts
    have hrest : ∀ x ∈ rest, ∀ n : Int, x = Action.active n → n ≤ 0 :=
      fun x hx n hn => hacts x (List.mem_cons_of_mem a hx) n hn
    cases a with
    | iter fuel =>
      have h1 := ih (stop_cameras D s w).1 (stop_cameras D s w).2
        (inactive_paired _ (stop_cameras_paired D s w hp))
        (by rw [stop_cameras_request]; exact hr) hrest
      simp only [run, mainIter_off D fuel s w hp hr]
      exact ⟨h1.1, by simp [h1.2]⟩
    | active n =>
      have hn : n ≤ 0 := hacts (Action.active n) (List.mem_cons_self _ _) n rfl
      have h0 : ¬ n > 0 := by omega
      have h1 := ih (camera_active s n).1 w (camera_active_paired s n hp)
        (by simp [camera_active, h0]) hrest
      simpa only [run] using h1
    | params req =>
      have h1 := ih (request_params D s w req).1.1 (request_params D s w req).1.2
        (active_paired _ (start_cameras_active D s w _ _ _ _ _))
        (by simp only [request_params]; rw [start_cameras_request]; exact hr) hrest
      simpa only [run] using h1
    | env w1 =>
      have h1 := ih s w1 hp hr hrest
      simpa only [run] using h1

theorem published_append (xs ys : List Event) :
    published (xs ++ ys) = published xs ++ published ys := by
  induction xs with
  | nil => rfl
  | cons e rest ih => cases e <;> simp [published, ih]

theorem mainIter_trace {σ : Type} (D : Dev σ) (fuel : Nat) (s : State) (w : σ) :
    (mainIter D fuel s w).trace = [] ∨
    ((mainIter D fuel s w).status = Status.done ∧
      (mainIter D fuel s w).trace =
      [Event.toIplImage Side.left, Event.toIplImage Side.right,
       Event.memcpy Side.left
        (toSizeT (wrapInt (wrapInt ((mainIter D fuel s w).state.ww
          * (mainIter D fuel s w).state.hh) * 3))),
       Event.memcpy Side.right
        (toSizeT (wrapInt (wrapInt ((mainIter D fuel s w).state.ww
          * (mainIter D fuel s w).state.hh) * 3))),
       Event.publish Side.left (mainIter D fuel s w).state.left,
       Event.publish Side.right (mainIter D fuel s w).state.right]) := by
  unfold mainIter
  simp only
  split
  · split
    · right; exact ⟨rfl, rfl⟩
    · left; rfl
    · left; rfl
  · left; rfl

theorem pollLoop_succ {σ : Type} (D : Dev σ) (a b : Camera) (fuel : Nat) (w : σ) :
    pollLoop D (some a) (some b) (fuel + 1) w =
      if (pollRound D a b w).1 = true then PollResult.ready (pollRound D a b w).2
      else pollLoop D (some a) (some b) fuel (pollRound D a b w).2 := by
  simp only [pollLoop, pollRound]
  split
  · simp
  · split <;> simp

theorem pollLoop_ready {σ : Type} (D : Dev σ) (a b : Camera) (fuel : Nat) :
    ∀ (w : σ) (k : Nat), k < fuel → (pollRound D a b (roundWorld D a b k w)).1 = true →
      ∃ w1, pollLoop D (some a) (some b) fuel w = PollResult.ready w1 := by
  induction fuel with
  | zero => intro w k hk; omega
  | succ n ih =>
    intro w k hk hready
    rw [pollLoop_succ]
    by_cases h0 : (pollRound D a b w).1 = true
    · exact ⟨(pollRound D a b w).2, by simp [h0]⟩
    · simp only [h0, if_false]
      cases k with
      | zero => exact absurd hready h0
      | succ j => exact ih (pollRound D a b w).2 j (by omega) hready

theorem pollLoop_spinning {σ : Type} (D : Dev σ) (a b : Camera) (fuel : Nat) :
    ∀ (w : σ), (∀ k, k < fuel → (pollRound D a b (roundWorld D a b k w)).1 = false) →
      pollLoop D (some a) (some b) fuel w = PollResult.spinning (roundWorld D a b fuel w) := by
  induction fuel with
  | zero => intro w _; rfl
  | succ n ih =>
    intro w hall
    rw [pollLoop_succ]
    have h0 : (pollRound D a b w).1 = false := hall 0 (by omega)
    simp only [h0, roundWorld]
    exact ih (pollRound D a b w).2 (fun k hk => hall (k + 1) (by omega))

/-! ## Pairing invariant and stopping -/

/-- C1: in every state reachable from the initial globals by `stop_cameras`,
`start_cameras`, the two service handlers and loop iterations, the two camera
handles are both absent or both present, and `cam_active` is true exactly when
both are present. -/
theorem pairing_invariant {σ : Type} (D : Dev σ) (s : State) (h : Reachable D s) :
    ((s.c = none ∧ s.c2 = none) ∨ (s.c.isSome = true ∧ s.c2.isSome = true)) ∧
    (s.cam_active = true ↔ (s.c.isSome = true ∧ s.c2.isSome = true)) := by
  obtain ⟨h1, h2⟩ := reachable_paired D s h
  cases hc : s.c with
  | none =>
    rw [hc] at h1 h2
    have h3 : s.c2 = none := by
      cases h4 : s.c2 with
      | none => rfl
      | some b => rw [h4] at h1; simp at h1
    simp [h3, h2]
  | some a =>
    rw [hc] at h1 h2
    have h3 : s.c2.isSome = true := by rw [← h1]; rfl
    simp [h3, h2]

theorem pairing_invariant_witness :
    Reachable readyDev startedState ∧
    (((startedState.c = none ∧ startedState.c2 = none) ∨
      (startedState.c.isSome = true ∧ startedState.c2.isSome = true)) ∧
     (startedState.cam_active = true ↔
      (startedState.c.isSome = true ∧ startedState.c2.isSome = true))) :=
  ⟨Reachable.params State.init () subscriberRequest Reachable.init,
   pairing_invariant readyDev startedState
     (Reachable.params State.init () subscriberRequest Reachable.init)⟩

/-- C5: `stop_cameras` is idempotent. On every reachable state a second stop
changes nothing, whatever the device world it runs in, the result of a stop is
inactive (no handle, `cam_active` false), and stopping an inactive state is a
no-op on the globals and on the devices. -/
theorem stop_cameras_idempotent {σ : Type} (D : Dev σ) (s : State) (w : σ)
    (h : Reachable D s) :
    stop_cameras D (stop_cameras D s w).1 (stop_cameras D s w).2 = stop_cameras D s w ∧
    (∀ w2 : σ, stop_cameras D (stop_cameras D s w).1 w2 = ((stop_cameras D s w).1, w2)) ∧
    Inactive (stop_cameras D s w).1 ∧
    (Inactive s → stop_cameras D s w = (s, w)) := by
  have hc := stop_cameras_c D s w
  refine ⟨?_, ?_, ?_, ?_⟩
  · rw [stop_cameras_none D _ _ hc]
  · intro w2
    exact stop_cameras_none D _ _ hc
  · exact stop_cameras_paired D s w (reachable_paired D s h)
  · intro hi
    exact stop_cameras_none D s w hi.1

theorem stop_cameras_idempotent_witness :
    Reachable readyDev startedState ∧
    (stop_cameras readyDev (stop_cameras readyDev startedState ()).1
        (stop_cameras readyDev startedState ()).2 = stop_cameras readyDev startedState () ∧
     (∀ w2 : Unit, stop_cameras readyDev (stop_cameras readyDev startedState ()).1 w2
        = ((stop_cameras readyDev startedState ()).1, w2)) ∧
     Inactive (stop_cameras readyDev startedState ()).1 ∧
     (Inactive startedState → stop_cameras readyDev startedState () = (startedState, ()))) :=
  ⟨Reachable.params State.init () subscriberRequest Reachable.init,
   stop_cameras_idempotent readyDev startedState ()
     (Reachable.params State.init () subscriberRequest Reachable.init)⟩


/-! ## Starting the cameras -/

theorem wrapInt_of_fits (x : Int) (h1 : -2147483648 ≤ x) (h2 : x ≤ 2147483647) :
    wrapInt x = x := by
  unfold wrapInt
  omega

theorem toU32_of_fits (x : Int) (h1 : 0 ≤ x) (h2 : x ≤ 2147483647) :
    ((toU32 x : Nat) : Int) = x := by
  unfold toU32
  omega

theorem geometry_fits (width height : Int) (hw : 0 < width) (hh : 0 < height) :
    width ≤ width * height ∧ height ≤ width * height := by
  constructor <;> nlinarith

/-- C2 (as stated, refuted): at 65536x65536 the byte count `width*height*3`
does not fit the `int` expression handed to `set_data_size`; the buffers get
0 bytes, not `width*height*3`. -/
theorem start_cameras_geometry_overflow :
    (0 : Int) < hugeRequest.width ∧ (0 : Int) < hugeRequest.height ∧
    (start_cameras readyDev State.init () hugeRequest.left_device hugeRequest.right_device
      hugeRequest.width hugeRequest.height hugeRequest.fps).1.left.data_size = 0 ∧
    ((start_cameras readyDev State.init () hugeRequest.left_device hugeRequest.right_device
      hugeRequest.width hugeRequest.height hugeRequest.fps).1.left.data_size : Int)
      ≠ hugeRequest.width * hugeRequest.height * 3 := by
  decide

/-- C2 (amended): for every prior state and every `width > 0`, `height > 0`
whose byte count `width*height*3` fits a C `int`, after `start_cameras` the
left and right image messages are equal in every field set, with width, height,
step `width*3`, encoding "bgr8" and a data buffer of `width*height*3` bytes, and
the rig is active. -/
theorem start_cameras_geometry {σ : Type} (D : Dev σ) (s : State) (w : σ)
    (ld rd : String) (width height fps : Int)
    (hw : 0 < width) (hh : 0 < height) (hfit : width * height * 3 ≤ 2147483647) :
    (start_cameras D s w ld rd width height fps).1.left
      = (start_cameras D s w ld rd width height fps).1.right ∧
    ((start_cameras D s w ld rd width height fps).1.left.width : Int) = width ∧
    ((start_cameras D s w ld rd width height fps).1.left.height : Int) = height ∧
    ((start_cameras D s w ld rd width height fps).1.left.step : Int) = width * 3 ∧
    (start_cameras D s w ld rd width height fps).1.left.encoding = "bgr8" ∧
    ((start_cameras D s w ld rd width height fps).1.left.data_size : Int)
      = width * height * 3 ∧
    Active (start_cameras D s w ld rd width height fps).1 := by
  obtain ⟨g1, g2⟩ := geometry_fits width height hw hh
  have e1 : wrapInt (width * height) = width * height :=
    wrapInt_of_fits _ (by omega) (by omega)
  have e3 : wrapInt (width * 3) = width * 3 := wrapInt_of_fits _ (by omega) (by omega)
  have e2 : wrapInt (width * height * 3) = width * height * 3 :=
    wrapInt_of_fits _ (by omega) (by omega)
  refine ⟨?_, ?_, ?_, ?_, ?_, ?_, start_cameras_active D s w ld rd width height fps⟩
  · simp [start_cameras]
  · simpa [start_cameras] using toU32_of_fits width (by omega) (by omega)
  · simpa [start_cameras] using toU32_of_fits height (by omega) (by omega)
  · simp only [start_cameras, e3]
    exact toU32_of_fits _ (by omega) (by omega)
  · simp [start_cameras]
  · simp only [start_cameras, e1, e2]
    exact toU32_of_fits _ (by omega) (by omega)

theorem start_cameras_geometry_witness :
    ((0 : Int) < 320 ∧ (0 : Int) < 240 ∧ (320 : Int) * 240 * 3 ≤ 2147483647) ∧
    ((start_cameras readyDev State.init () "/dev/video1" "/dev/video0" 320 240 30).1.left
      = (start_cameras readyDev State.init () "/dev/video1" "/dev/video0" 320 240 30).1.right ∧
    ((start_cameras readyDev State.init () "/dev/video1" "/dev/video0" 320 240 30).1.left.width
      : Int) = 320 ∧
    ((start_cameras readyDev State.init () "/dev/video1" "/dev/video0" 320 240 30).1.left.height
      : Int) = 240 ∧
    ((start_cameras readyDev State.init () "/dev/video1" "/dev/video0" 320 240 30).1.left.step
      : Int) = 320 * 3 ∧
    (start_cameras readyDev State.init () "/dev/video1" "/dev/video0" 320 240 30).1.left.encoding
      = "bgr8" ∧
    ((start_cameras readyDev State.init () "/dev/video1" "/dev/video0" 320 240 30).1.left.data_size
      : Int) = 320 * 240 * 3 ∧
    Active (start_cameras readyDev State.init () "/dev/video1" "/dev/video0" 320 240 30).1) :=
  ⟨⟨by decide, by decide, by decide⟩,
   start_cameras_geometry readyDev State.init () "/dev/video1" "/dev/video0" 320 240 30
     (by decide) (by decide) (by decide)⟩

/-! ## The reconfigure handler -/

/-- C3 (as stated, refuted): with devices that do not open, `request_params`
still answers ack 1, holds both handles with `cam_active` true, and has sized
the buffers for the requested 320x240. -/
theorem request_params_open_failure :
    (deadDev.ctor subscriberRequest.left_device 320 240 30 ()).1 = false ∧
    (request_params deadDev State.init () subscriberRequest).2 = 1 ∧
    Active (request_params deadDev State.init () subscriberRequest).1.1 ∧
    ¬ Inactive (request_params deadDev State.init () subscriberRequest).1.1 ∧
    (request_params deadDev State.init () subscriberRequest).1.1.left.data_size = 230400 ∧
    (request_params deadDev State.init () subscriberRequest).1.1.right.data_size = 230400 := by
  unfold Active Inactive
  decide

/-- C3 (amended): `request_params` does not look at whether the devices
opened. For every device behaviour, state and request it answers ack 1, holds
both handles (each carrying its own open outcome), sets `cam_active`, and sizes
both buffers from the requested geometry. -/
theorem request_params_ignores_open_outcome {σ : Type} (D : Dev σ) (s : State) (w : σ)
    (req : ParamsRequest) :
    (request_params D s w req).2 = 1 ∧
    Active (request_params D s w req).1.1 ∧
    (request_params D s w req).1.1.c = some
      { name := req.left_device, width := req.width, height := req.height, fps := req.fps,
        opened := (D.ctor req.left_device req.width req.height req.fps
          (stop_cameras D s w).2).1 } ∧
    (request_params D s w req).1.1.c2 = some
      { name := req.right_device, width := req.width, height := req.height, fps := req.fps,
        opened := (D.ctor req.right_device req.width req.height req.fps
          (D.ctor req.left_device req.width req.height req.fps (stop_cameras D s w).2).2).1 } ∧
    (request_params D s w req).1.1.left.data_size
      = toU32 (wrapInt (wrapInt (req.width * req.height) * 3)) ∧
    (request_params D s w req).1.1.right.data_size
      = toU32 (wrapInt (wrapInt (req.width * req.height) * 3)) := by
  refine ⟨rfl, start_cameras_active D s w _ _ _ _ _, ?_, ?_, ?_, ?_⟩ <;>
    simp [request_params, start_cameras]

/-- C4 (as stated, refuted): a request with width, height and fps all 0 is
answered with ack 1 and changes the globals: the rig becomes active. -/
theorem request_params_zero_accepted :
    zeroRequest.width ≤ 0 ∧ zeroRequest.height ≤ 0 ∧ zeroRequest.fps ≤ 0 ∧
    (request_params readyDev State.init () zeroRequest).2 = 1 ∧
    (request_params readyDev State.init () zeroRequest).1.1 ≠ State.init ∧
    (request_params readyDev State.init () zeroRequest).1.1.cam_active = true := by
  decide

/-- C4 (amended): `request_params` does not validate its request. A request
whose width, height or fps is not positive is answered with ack 1 like any
other, and the rig is restarted with the requested values: both handles are
built from them, `cam_active` is true and the message geometry is their
conversion to `uint32_t`. -/
theorem request_params_nonpositive {σ : Type} (D : Dev σ) (s : State) (w : σ)
    (req : ParamsRequest) (_h : req.width ≤ 0 ∨ req.height ≤ 0 ∨ req.fps ≤ 0) :
    (request_params D s w req).2 = 1 ∧
    Active (request_params D s w req).1.1 ∧
    (request_params D s w req).1.1.c.map (fun k => (k.name, k.width, k.height, k.fps))
      = some (req.left_device, req.width, req.height, req.fps) ∧
    (request_params D s w req).1.1.c2.map (fun k => (k.name, k.width, k.height, k.fps))
      = some (req.right_device, req.width, req.height, req.fps) ∧
    (request_params D s w req).1.1.left.width = toU32 req.width ∧
    (request_params D s w req).1.1.left.height = toU32 req.height ∧
    (request_params D s w req).1.1.right.width = toU32 req.width ∧
    (request_params D s w req).1.1.right.height = toU32 req.height := by
  refine ⟨rfl, start_cameras_active D s w _ _ _ _ _, ?_, ?_, ?_, ?_, ?_, ?_⟩ <;>
    simp [request_params, start_cameras]

theorem request_params_nonpositive_witness :
    (zeroRequest.width ≤ 0 ∨ zeroRequest.height ≤ 0 ∨ zeroRequest.fps ≤ 0) ∧
    ((request_params readyDev startedState () zeroRequest).2 = 1 ∧
    Active (request_params readyDev startedState () zeroRequest).1.1 ∧
    (request_params readyDev startedState () zeroRequest).1.1.c.map
        (fun k => (k.name, k.width, k.height, k.fps))
      = some (zeroRequest.left_device, zeroRequest.width, zeroRequest.height,
          zeroRequest.fps) ∧
    (request_params readyDev startedState () zeroRequest).1.1.c2.map
        (fun k => (k.name, k.width, k.height, k.fps))
      = some (zeroRequest.right_device, zeroRequest.width, zeroRequest.height,
          zeroRequest.fps) ∧
    (request_params readyDev startedState () zeroRequest).1.1.left.width
      = toU32 zeroRequest.width ∧
    (request_params readyDev startedState () zeroRequest).1.1.left.height
      = toU32 zeroRequest.height ∧
    (request_params readyDev startedState () zeroRequest).1.1.right.width
      = toU32 zeroRequest.width ∧
    (request_params readyDev startedState () zeroRequest).1.1.right.height
      = toU32 zeroRequest.height) :=
  ⟨Or.inl (by decide),
   request_params_nonpositive readyDev startedState () zeroRequest (Or.inl (by decide))⟩


/-! ## The main loop -/

/-- C7: from every reachable state (so from every active one), the
`camera_active` handler given a request `<= 0` answers ack 1 and changes only
`cam_active_request`; the next loop iteration then completes, leaves the rig
inactive and publishes nothing; and any further run of iterations, reconfigure
requests and further requests `<= 0` completes every iteration and publishes
nothing. -/
theorem deactivation_takes_effect {σ : Type} (D : Dev σ) (s : State) (w : σ) (req : Int)
    (fuel : Nat) (acts : List (Action σ)) (h : Reachable D s) (hreq : req ≤ 0)
    (hacts : ∀ a ∈ acts, ∀ n : Int, a = Action.active n → n ≤ 0) :
    (camera_active s req).2 = 1 ∧
    (camera_active s req).1 = { s with cam_active_request := false } ∧
    (mainIter D fuel (camera_active s req).1 w).status = Status.done ∧
    Inactive (mainIter D fuel (camera_active s req).1 w).state ∧
    (mainIter D fuel (camera_active s req).1 w).trace = [] ∧
    (run D acts (mainIter D fuel (camera_active s req).1 w).state
      (mainIter D fuel (camera_active s req).1 w).world).status = Status.done ∧
    (run D acts (mainIter D fuel (camera_active s req).1 w).state
      (mainIter D fuel (camera_active s req).1 w).world).trace = [] := by
  have h0 : ¬ req > 0 := by omega
  have hs : (camera_active s req).1 = { s with cam_active_request := false } := by
    simp [camera_active, h0]
  have hack : (camera_active s req).2 = 1 := by
    simp [camera_active, h0]
  have hp : Paired (camera_active s req).1 :=
    camera_active_paired s req (reachable_paired D s h)
  have hr : (camera_active s req).1.cam_active_request = false := by rw [hs]
  have hi := stop_cameras_paired D (camera_active s req).1 w hp
  rw [mainIter_off D fuel _ w hp hr]
  have hrun := run_off D acts (stop_cameras D (camera_active s req).1 w).1
    (stop_cameras D (camera_active s req).1 w).2 (inactive_paired _ hi)
    (by rw [stop_cameras_request]; exact hr) hacts
  exact ⟨hack, hs, rfl, hi, rfl, hrun.1, hrun.2⟩

theorem deactivation_takes_effect_witness :
    (Reachable readyDev activeState ∧ (0 : Int) ≤ 0 ∧
      (∀ a ∈ quietActions, ∀ n : Int, a = Action.active n → n ≤ 0)) ∧
    ((camera_active activeState 0).2 = 1 ∧
    (camera_active activeState 0).1 = { activeState with cam_active_request := false } ∧
    (mainIter readyDev 1 (camera_active activeState 0).1 ()).status = Status.done ∧
    Inactive (mainIter readyDev 1 (camera_active activeState 0).1 ()).state ∧
    (mainIter readyDev 1 (camera_active activeState 0).1 ()).trace = [] ∧
    (run readyDev quietActions (mainIter readyDev 1 (camera_active activeState 0).1 ()).state
      (mainIter readyDev 1 (camera_active activeState 0).1 ()).world).status = Status.done ∧
    (run readyDev quietActions (mainIter readyDev 1 (camera_active activeState 0).1 ()).state
      (mainIter readyDev 1 (camera_active activeState 0).1 ()).world).trace = []) :=
  have hreach : Reachable readyDev activeState :=
    Reachable.active startedState 1
      (Reachable.params State.init () subscriberRequest Reachable.init)
  have hacts : ∀ a ∈ quietActions, ∀ n : Int, a = Action.active n → n ≤ 0 := by
    intro a ha n hn
    subst hn
    simp [quietActions] at ha
    omega
  ⟨⟨hreach, le_refl 0, hacts⟩,
   deactivation_takes_effect readyDev activeState () 0 1 quietActions hreach (le_refl 0) hacts⟩


/-- C8: for every state and every device behaviour, what one loop iteration
publishes is either nothing or exactly the left image followed by the right
image, and the published trace of any run of iterations, service calls and
device changes consists of (left, right) pairs only. -/
theorem publish_in_pairs {σ : Type} (D : Dev σ) (acts : List (Action σ)) (fuel : Nat)
    (s : State) (w : σ) :
    (published (mainIter D fuel s w).trace = [] ∨
      published (mainIter D fuel s w).trace =
        [(Side.left, (mainIter D fuel s w).state.left),
         (Side.right, (mainIter D fuel s w).state.right)]) ∧
    pairsOnly (published (run D acts s w).trace) = true := by
  refine ⟨?_, ?_⟩
  · rcases mainIter_trace D fuel s w with h | ⟨_, h⟩
    · left; rw [h]; rfl
    · right; rw [h]; rfl
  · induction acts generalizing s w with
    | nil => rfl
    | cons a rest ih =>
      cases a with
      | iter f =>
        simp only [run]
        split
        · rename_i hst
          simp only [published_append]
          rcases mainIter_trace D f s w with h | ⟨_, h⟩
          · rw [h]
            exact ih _ _
          · rw [h]
            exact ih _ _
        · rename_i hst
          rcases mainIter_trace D f s w with h | ⟨hd, _⟩
          · rw [h]; rfl
          · exact absurd hd (hst · )
      | active n => simpa only [run] using ih _ _
      | params req => simpa only [run] using ih _ _
      | env w1 => simpa only [run] using ih _ _

/-- C9 (as stated, refuted): with devices whose `Get()` always returns 0, an
iteration from a reachable active state with activation desired is still in
its poll loop after any number of rounds. -/
theorem poll_loop_unbounded :
    Reachable deadDev deadActiveState ∧ Active deadActiveState ∧
    ¬ ∃ fuel : Nat, (mainIter deadDev fuel deadActiveState ()).status ≠ Status.spinning := by
  refine ⟨Reachable.active _ 1
    (Reachable.params State.init () subscriberRequest Reachable.init), ?_, ?_⟩
  · unfold Active
    decide
  · rintro ⟨fuel, hne⟩
    apply hne
    have hc : deadActiveState.c
        = some { name := "/dev/video1", width := 320, height := 240, fps := 30,
                 opened := false } := by decide
    have hc2 : deadActiveState.c2
        = some { name := "/dev/video0", width := 320, height := 240, fps := 30,
                 opened := false } := by decide
    have hrec : reconcile deadDev deadActiveState () = (deadActiveState, ()) :=
      reconcile_on_active deadDev deadActiveState () (by decide) (by decide)
    have hpoll := pollLoop_spinning deadDev
      { name := "/dev/video1", width := 320, height := 240, fps := 30, opened := false }
      { name := "/dev/video0", width := 320, height := 240, fps := 30, opened := false }
      fuel () (fun _ _ => rfl)
    unfold mainIter
    simp only [hrec, hc, hc2, hpoll]
    rfl

/-- C9 (amended): the poll loop has no deadline. From every reachable active
state with activation desired, an iteration ends its poll loop exactly when
some round has `c->Get()` and then `c2->Get()` both nonzero, and it then holds
both frames; when in addition `left.data` and `right.data` each hold at least
the `ww*hh*3` bytes that the copy writes, the iteration completes and publishes
left then right. As long as no round has both, the loop keeps polling and
nothing is published, whatever the buffers. -/
theorem poll_loop_waits_for_both {σ : Type} (D : Dev σ) (s : State) (w : σ) (fuel : Nat)
    (h : Reachable D s) (hact : s.cam_active = true) (hreq : s.cam_active_request = true) :
    ∃ a b, s.c = some a ∧ s.c2 = some b ∧
      ((∃ k, k < fuel ∧ (pollRound D a b (roundWorld D a b k w)).1 = true) →
        ∃ w1, pollLoop D s.c s.c2 fuel w = PollResult.ready w1) ∧
      (toSizeT (wrapInt (wrapInt (s.ww * s.hh) * 3)) ≤ s.left.data_size →
        toSizeT (wrapInt (wrapInt (s.ww * s.hh) * 3)) ≤ s.right.data_size →
        (∃ k, k < fuel ∧ (pollRound D a b (roundWorld D a b k w)).1 = true) →
        (mainIter D fuel s w).status = Status.done ∧
        (mainIter D fuel s w).state = s ∧
        published (mainIter D fuel s w).trace = [(Side.left, s.left), (Side.right, s.right)]) ∧
      ((∀ k, k < fuel → (pollRound D a b (roundWorld D a b k w)).1 = false) →
        pollLoop D s.c s.c2 fuel w = PollResult.spinning (roundWorld D a b fuel w) ∧
        (mainIter D fuel s w).status = Status.spinning ∧
        (mainIter D fuel s w).state = s ∧
        (mainIter D fuel s w).world = roundWorld D a b fuel w ∧
        (mainIter D fuel s w).trace = []) := by
  obtain ⟨a, b, hc, hc2⟩ := paired_active_cameras s (reachable_paired D s h) hact
  have hrec := reconcile_on_active D s w hreq hact
  refine ⟨a, b, hc, hc2, ?_, ?_, ?_⟩
  · rintro ⟨k, hk, hready⟩
    rw [hc, hc2]
    exact pollLoop_ready D a b fuel w k hk hready
  · rintro _ _ ⟨k, hk, hready⟩
    obtain ⟨w1, hw1⟩ := pollLoop_ready D a b fuel w k hk hready
    unfold mainIter
    simp only [hrec, hact, hc, hc2, hw1]
    exact ⟨rfl, rfl, rfl⟩
  · intro hall
    have hsp := pollLoop_spinning D a b fuel w hall
    refine ⟨by rw [hc, hc2]; exact hsp, ?_⟩
    unfold mainIter
    simp only [hrec, hact, hc, hc2, hsp]
    exact ⟨rfl, rfl, rfl, rfl⟩

theorem poll_loop_waits_for_both_witness :
    (Reachable readyDev activeState ∧ activeState.cam_active = true ∧
      activeState.cam_active_request = true) ∧
    (toSizeT (wrapInt (wrapInt (activeState.ww * activeState.hh) * 3)) = 230400 ∧
      activeState.left.data_size = 230400 ∧ activeState.right.data_size = 230400) ∧
    (∃ a b, activeState.c = some a ∧ activeState.c2 = some b ∧
      ((∃ k, k < 1 ∧ (pollRound readyDev a b (roundWorld readyDev a b k ())).1 = true) →
        ∃ w1, pollLoop readyDev activeState.c activeState.c2 1 () = PollResult.ready w1) ∧
      (toSizeT (wrapInt (wrapInt (activeState.ww * activeState.hh) * 3))
          ≤ activeState.left.data_size →
        toSizeT (wrapInt (wrapInt (activeState.ww * activeState.hh) * 3))
          ≤ activeState.right.data_size →
        (∃ k, k < 1 ∧ (pollRound readyDev a b (roundWorld readyDev a b k ())).1 = true) →
        (mainIter readyDev 1 activeState ()).status = Status.done ∧
        (mainIter readyDev 1 activeState ()).state = activeState ∧
        published (mainIter readyDev 1 activeState ()).trace
          = [(Side.left, activeState.left), (Side.right, activeState.right)]) ∧
      ((∀ k, k < 1 → (pollRound readyDev a b (roundWorld readyDev a b k ())).1 = false) →
        pollLoop readyDev activeState.c activeState.c2 1 ()
          = PollResult.spinning (roundWorld readyDev a b 1 ()) ∧
        (mainIter readyDev 1 activeState ()).status = Status.spinning ∧
        (mainIter readyDev 1 activeState ()).state = activeState ∧
        (mainIter readyDev 1 activeState ()).world = roundWorld readyDev a b 1 () ∧
        (mainIter readyDev 1 activeState ()).trace = [])) :=
  have hreach : Reachable readyDev activeState :=
    Reachable.active startedState 1
      (Reachable.params State.init () subscriberRequest Reachable.init)
  ⟨⟨hreach, by decide, by decide⟩, ⟨by decide, by decide, by decide⟩,
   poll_loop_waits_for_both readyDev activeState () 1 hreach (by decide) (by decide)⟩

/-! ## Reconfiguration and the startup defaults -/

/-- C6 (as stated, refuted): after a reconfigure to other devices at 640x480
and 15 fps, a deactivation and a reactivation through the loop build the
cameras from the startup defaults, not from the new configuration. -/
theorem loop_start_ignores_new_config :
    (request_params readyDev State.init () newConfig).2 = 1 ∧
    (run readyDev (reactivation newConfig 0 1 1 1) State.init ()).state.c
      = some { name := "/dev/video1", width := 320, height := 240, fps := 30,
               opened := true } ∧
    (run readyDev (reactivation newConfig 0 1 1 1) State.init ()).state.c2
      = some { name := "/dev/video0", width := 320, height := 240, fps := 30,
               opened := true } ∧
    (run readyDev (reactivation newConfig 0 1 1 1) State.init ()).state.c
      ≠ some { name := newConfig.left_device, width := newConfig.width,
               height := newConfig.height, fps := newConfig.fps, opened := true } ∧
    (run readyDev (reactivation newConfig 0 1 1 1) State.init ()).state.c2
      ≠ some { name := newConfig.right_device, width := newConfig.width,
               height := newConfig.height, fps := newConfig.fps, opened := true } := by
  decide

/-- C6 (amended): the startup defaults are never superseded. From every
reachable state, after any reconfigure request, a deactivation, a loop
iteration, a reactivation and a further loop iteration, the loop-driven
`start_cameras` call has received "/dev/video1", "/dev/video0", 320, 240 and 30:
both handles are built from them and both messages have the 320x240 geometry
with 230400 bytes of data. -/
theorem loop_start_uses_defaults {σ : Type} (D : Dev σ) (s : State) (w : σ)
    (req : ParamsRequest) (reqOff reqOn : Int) (f1 f2 : Nat)
    (h : Reachable D s) (hoff : reqOff ≤ 0) (hon : 0 < reqOn) :
    (run D (reactivation req reqOff reqOn f1 f2) s w).state.c.map
        (fun k => (k.name, k.width, k.height, k.fps))
      = some ("/dev/video1", 320, 240, 30) ∧
    (run D (reactivation req reqOff reqOn f1 f2) s w).state.c2.map
        (fun k => (k.name, k.width, k.height, k.fps))
      = some ("/dev/video0", 320, 240, 30) ∧
    (run D (reactivation req reqOff reqOn f1 f2) s w).state.left
      = { width := 320, height := 240, step := 960, encoding := "bgr8",
          data_size := 230400 } ∧
    (run D (reactivation req reqOff reqOn f1 f2) s w).state.right
      = { width := 320, height := 240, step := 960, encoding := "bgr8",
          data_size := 230400 } := by
  have h1 : Reachable D (request_params D s w req).1.1 := Reachable.params s w req h
  have h2 : Reachable D (camera_active (request_params D s w req).1.1 reqOff).1 :=
    Reachable.active _ reqOff h1
  have hp2 := reachable_paired D _ h2
  have hr2 : (camera_active (request_params D s w req).1.1 reqOff).1.cam_active_request
      = false := by
    have h0 : ¬ reqOff > 0 := by omega
    simp [camera_active, h0]
  have hi := stop_cameras_paired D
    (camera_active (request_params D s w req).1.1 reqOff).1 (request_params D s w req).1.2 hp2
  have h3 : Reachable D (stop_cameras D
      (camera_active (request_params D s w req).1.1 reqOff).1
      (request_params D s w req).1.2).1 := Reachable.stop _ _ h2
  have h4 := Reachable.active _ reqOn h3
  obtain ⟨d0, d1, dfps, dww, dhh⟩ := reachable_defaults D _ h4
  have hr4 : (camera_active (stop_cameras D
      (camera_active (request_params D s w req).1.1 reqOff).1
      (request_params D s w req).1.2).1 reqOn).1.cam_active_request = true := by
    simp [camera_active, hon]
  have ha4 : (camera_active (stop_cameras D
      (camera_active (request_params D s w req).1.1 reqOff).1
      (request_params D s w req).1.2).1 reqOn).1.cam_active = false := by
    have := hi.2.2
    simp only [camera_active]
    split <;> simpa using this
  have key : (mainIter D f2
      (camera_active (stop_cameras D
        (camera_active (request_params D s w req).1.1 reqOff).1
        (request_params D s w req).1.2).1 reqOn).1
      (stop_cameras D
        (camera_active (request_params D s w req).1.1 reqOff).1
        (request_params D s w req).1.2).2).state
      = (start_cameras D
          (camera_active (stop_cameras D
            (camera_active (request_params D s w req).1.1 reqOff).1
            (request_params D s w req).1.2).1 reqOn).1
          (stop_cameras D
            (camera_active (request_params D s w req).1.1 reqOff).1
            (request_params D s w req).1.2).2
          "/dev/video1" "/dev/video0" 320 240 30).1 := by
    rw [mainIter_state, reconcile_on_inactive D _ _ hr4 ha4, d0, d1, dfps, dww, dhh]
  have hstate : (run D (reactivation req reqOff reqOn f1 f2) s w).state
      = (start_cameras D
          (camera_active (stop_cameras D
            (camera_active (request_params D s w req).1.1 reqOff).1
            (request_params D s w req).1.2).1 reqOn).1
          (stop_cameras D
            (camera_active (request_params D s w req).1.1 reqOff).1
            (request_params D s w req).1.2).2
          "/dev/video1" "/dev/video0" 320 240 30).1 := by
    simp only [reactivation, run, mainIter_off D f1 _ _ hp2 hr2]
    split
    · exact key
    · exact key
  rw [hstate]
  simp only [start_cameras]
  refine ⟨rfl, rfl, ?_, ?_⟩ <;> decide

theorem loop_start_uses_defaults_witness :
    (Reachable readyDev State.init ∧ (0 : Int) ≤ 0 ∧ (0 : Int) < 1) ∧
    ((run readyDev (reactivation newConfig 0 1 1 1) State.init ()).state.c.map
        (fun k => (k.name, k.width, k.height, k.fps))
      = some ("/dev/video1", 320, 240, 30) ∧
    (run readyDev (reactivation newConfig 0 1 1 1) State.init ()).state.c2.map
        (fun k => (k.name, k.width, k.height, k.fps))
      = some ("/dev/video0", 320, 240, 30) ∧
    (run readyDev (reactivation newConfig 0 1 1 1) State.init ()).state.left
      = { width := 320, height := 240, step := 960, encoding := "bgr8",
          data_size := 230400 } ∧
    (run readyDev (reactivation newConfig 0 1 1 1) State.init ()).state.right
      = { width := 320, height := 240, step := 960, encoding := "bgr8",
          data_size := 230400 }) :=
  ⟨⟨Reachable.init, le_refl 0, by decide⟩,
   loop_start_uses_defaults readyDev State.init () newConfig 0 1 1 1 Reachable.init
     (le_refl 0) (by decide)⟩


/-- C10 (the code at the failing inputs): the `memcpy` length is `ww*hh*3` of
the startup globals, 230400, whatever geometry the buffers were last sized
for. After a reconfigure to 160x120 the iteration writes 230400 bytes into
each 57600-byte buffer; after a reconfigure from 320x240 to 640x480 it writes
230400 of the 921600 bytes of each buffer. In both cases the pair is
published. -/
theorem memcpy_length_ignores_geometry :
    (run readyDev shrinkActions State.init ()).status = Status.done ∧
    (run readyDev shrinkActions State.init ()).state.left.data_size = 57600 ∧
    (run readyDev shrinkActions State.init ()).state.right.data_size = 57600 ∧
    (run readyDev shrinkActions State.init ()).trace =
      [Event.toIplImage Side.left, Event.toIplImage Side.right,
       Event.memcpy Side.left 230400, Event.memcpy Side.right 230400,
       Event.publish Side.left
        { width := 160, height := 120, step := 480, encoding := "bgr8", data_size := 57600 },
       Event.publish Side.right
        { width := 160, height := 120, step := 480, encoding := "bgr8", data_size := 57600 }] ∧
    (run readyDev growActions State.init ()).status = Status.done ∧
    (run readyDev growActions State.init ()).state.left.data_size = 921600 ∧
    (run readyDev growActions State.init ()).state.right.data_size = 921600 ∧
    (run readyDev growActions State.init ()).trace =
      [Event.toIplImage Side.left, Event.toIplImage Side.right,
       Event.memcpy Side.left 230400, Event.memcpy Side.right 230400,
       Event.publish Side.left
        { width := 320, height := 240, step := 960, encoding := "bgr8", data_size := 230400 },
       Event.publish Side.right
        { width := 320, height := 240, step := 960, encoding := "bgr8", data_size := 230400 },
       Event.toIplImage Side.left, Event.toIplImage Side.right,
       Event.memcpy Side.left 230400, Event.memcpy Side.right 230400,
       Event.publish Side.left
        { width := 640, height := 480, step := 1920, encoding := "bgr8",
          data_size := 921600 },
       Event.publish Side.right
        { width := 640, height := 480, step := 1920, encoding := "bgr8",
          data_size := 921600 }] := by
  decide

end Stereocam
